import Mathlib

set_option autoImplicit false

/-!
Shallow embedding of the restful-booker API test client
(src/api_client.py, src/endpoints/auth.py, src/endpoints/config.py,
src/endpoints/booking.py, src/models.py, src/schemas.py and the
fixture cleanup logic of tests/conftest.py), together with theorems
settling the behavioural claims about it.

HTTP effects are abstracted: each client method is embedded as the pure
request it builds and, where the method inspects the server response, as
a state transition taking the response as an input.  Python exceptions
are modelled with Except String.
-/

/-- JSON values as produced by response.json() in the Python client. -/
inductive Json where
  | null : Json
  | bool (b : Bool) : Json
  | int (n : Int) : Json
  | str (s : String) : Json
  | arr (xs : List Json) : Json
  | obj (fields : List (String × Json)) : Json
deriving Repr

/-- First-match lookup of a key in the field list of a JSON object
(Python dict subscript; dicts have unique keys). -/
def lookupJson (fields : List (String × Json)) (k : String) : Option Json :=
  match fields with
  | [] => none
  | (k2, v) :: rest => if k2 = k then some v else lookupJson rest k

mutual

/-- Python repr() of a JSON value (used by str() on containers). -/
def pyrepr : Json → String
  | Json.null => "None"
  | Json.bool b => cond b "True" "False"
  | Json.int n => toString n
  | Json.str s => "\x27" ++ s ++ "\x27"
  | Json.arr xs => "[" ++ String.intercalate ", " (pyreprList xs) ++ "]"
  | Json.obj fs => "\x7b" ++ String.intercalate ", " (pyreprFields fs) ++ "\x7d"

/-- repr of each element of a JSON array. -/
def pyreprList : List Json → List String
  | [] => []
  | x :: xs => pyrepr x :: pyreprList xs

/-- repr of each key/value pair of a JSON object. -/
def pyreprFields : List (String × Json) → List String
  | [] => []
  | (k, v) :: fs =>
      ("\x27" ++ k ++ "\x27: " ++ pyrepr v) :: pyreprFields fs

end

/-- Python str() of a JSON value, as used by f-string interpolation. -/
def pystr : Json → String
  | Json.str s => s
  | j => pyrepr j

/-- Python truthiness of a JSON value. -/
def pyTruthy : Json → Bool
  | Json.null => false
  | Json.bool b => b
  | Json.int n => decide (n ≠ 0)
  | Json.str s => decide (s ≠ "")
  | Json.arr xs => !xs.isEmpty
  | Json.obj fs => !fs.isEmpty

/-- Python truthiness of an Optional value (None is falsy). -/
def optTruthy : Option Json → Bool
  | none => false
  | some j => pyTruthy j

/-- String-valued dictionaries (request headers, query parameters),
as insertion-ordered association lists with unique keys. -/
def dictLookup (d : List (String × String)) (k : String) : Option String :=
  match d with
  | [] => none
  | (k2, v) :: rest => if k2 = k then some v else dictLookup rest k

/-- Python dict update: spreading a dict and then writing key k replaces
an existing entry for k in place, otherwise appends it. -/
def dictInsert (d : List (String × String)) (k v : String) : List (String × String) :=
  match d with
  | [] => [(k, v)]
  | (k2, v2) :: rest =>
      if k2 = k then (k, v) :: rest else (k2, v2) :: dictInsert rest k v

/- ==================== UTF-8 and base64 ==================== -/

/-- Modelled from the spec: UTF-8 encoding of a code point, the effect of
Python str.encode() on each character (stdlib behaviour, not repository
code).  Returns the byte values as natural numbers. -/
def utf8EncodeCharNat (c : Char) : List Nat :=
  let n := c.toNat
  if n < 0x80 then [n]
  else if n < 0x800 then [0xC0 + n / 64, 0x80 + n % 64]
  else if n < 0x10000 then
    [0xE0 + n / 4096, 0x80 + (n / 64) % 64, 0x80 + n % 64]
  else
    [0xF0 + n / 0x40000, 0x80 + (n / 4096) % 64, 0x80 + (n / 64) % 64,
     0x80 + n % 64]

/-- UTF-8 bytes of a string (Python s.encode()). -/
def utf8Bytes (s : String) : List Nat :=
  (s.data.map utf8EncodeCharNat).flatten

/-- The RFC 4648 base64 alphabet. -/
def b64Alphabet : List Char :=
  "ABCDEFGHIJKLMNOPQRSTUVWXYZabcdefghijklmnopqrstuvwxyz0123456789+/".data

/-- The base64 digit for a 6-bit value. -/
def b64Char (n : Nat) : Char := b64Alphabet.getD n 'A'

/-- Modelled from the spec: standard base64 of a byte list with padding,
the behaviour of Python base64.b64encode (stdlib, not repository code). -/
def b64EncodeBytes : List Nat → String
  | [] => ""
  | [a] =>
      String.mk [b64Char (a / 4), b64Char (a % 4 * 16), '=', '=']
  | [a, b] =>
      String.mk [b64Char (a / 4), b64Char (a % 4 * 16 + b / 16),
                 b64Char (b % 16 * 4), '=']
  | a :: b :: c :: rest =>
      String.mk [b64Char (a / 4), b64Char (a % 4 * 16 + b / 16),
                 b64Char (b % 16 * 4 + c / 64), b64Char (c % 64)]
        ++ b64EncodeBytes rest

/-- base64.b64encode(s.encode()).decode() of the Python sources. -/
def base64Encode (s : String) : String := b64EncodeBytes (utf8Bytes s)

/- ==================== Endpoint registry (config.py, auth.py,
booking.py, ping.py) ==================== -/

/-- BASE_URL of config.py (default, environment override not modelled). -/
def BASE_URL : String := "https://restful-booker.herokuapp.com"

/-- Common request headers HEADERS of config.py. -/
def HEADERS : List (String × String) :=
  [("Content-Type", "application/json"), ("Accept", "application/json")]

/-- AUTH_ENDPOINT of auth.py. -/
def AUTH_ENDPOINT : String := BASE_URL ++ "/auth"

/-- BOOKING_ENDPOINT of booking.py. -/
def BOOKING_ENDPOINT : String := BASE_URL ++ "/booking"

/-- PING_ENDPOINT of ping.py. -/
def PING_ENDPOINT : String := BASE_URL ++ "/ping"

/-- DEFAULT_USERNAME of auth.py (environment default). -/
def DEFAULT_USERNAME : String := "admin"

/-- DEFAULT_PASSWORD of auth.py (environment default). -/
def DEFAULT_PASSWORD : String := "password123"

/-- get_auth_header of auth.py: spread HEADERS, then the Cookie entry. -/
def get_auth_header (token : String) : List (String × String) :=
  dictInsert HEADERS "Cookie" ("token=" ++ token)

/-- get_basic_auth_header of auth.py: spread HEADERS, then the
Authorization entry carrying base64(username:password). -/
def get_basic_auth_header (username password : String) :
    List (String × String) :=
  dictInsert HEADERS "Authorization"
    ("Basic " ++ base64Encode (username ++ ":" ++ password))

/-- get_booking_url of booking.py. -/
def get_booking_url (booking_id : Int) : String :=
  BOOKING_ENDPOINT ++ "/" ++ toString booking_id

/- ==================== HTTP abstraction ==================== -/

/-- A server response as the client observes it: status code, the parsed
JSON body when response.json() succeeds (none when the body is not valid
JSON), and response.text. -/
structure HttpResponse where
  status_code : Nat
  body : Option Json
  text : String
deriving Repr

/-- The request a client method hands to the HTTP session: verb, URL,
query parameters, headers and optional JSON body. -/
structure Request where
  method : String
  url : String
  params : List (String × String)
  headers : List (String × String)
  reqBody : Option Json
deriving Repr

/-- Client state: a RestfulBookerClient owns an optional token
(self.token, set to None in __init__).  The token field holds whatever
JSON value the auth response carried. -/
structure RestfulBookerClient where
  token : Option Json
deriving Repr

/-- A freshly constructed client (__init__): no token held. -/
def RestfulBookerClient.init : RestfulBookerClient := ⟨none⟩

/- ==================== Python membership / subscript ==================== -/

/-- Whether a string occurs as a substring of another (helper for the
Python in operator on strings). -/
def strContains (hay needle : String) : Bool :=
  if needle = "" then true else decide (1 < (hay.splitOn needle).length)

/-- Python k in data for a JSON value data: key membership for dicts,
element equality for lists, substring test for strings, TypeError
otherwise. -/
def pyIn (k : String) (data : Json) : Except String Bool :=
  match data with
  | Json.obj fields => Except.ok (lookupJson fields k).isSome
  | Json.arr xs =>
      Except.ok (xs.any fun j =>
        match j with
        | Json.str s => decide (s = k)
        | _ => false)
  | Json.str s => Except.ok (strContains s k)
  | _ => Except.error "TypeError: argument is not iterable"

/-- Python data[k] for a string key: dict lookup, KeyError when absent,
TypeError on non-dicts. -/
def pySubscript (data : Json) (k : String) : Except String Json :=
  match data with
  | Json.obj fields =>
      match lookupJson fields k with
      | some v => Except.ok v
      | none => Except.error "KeyError"
  | _ => Except.error "TypeError: indices must be integers"

/- ==================== API client methods (api_client.py) ========== -/

/-- The POST request create_token sends: credentials payload to /auth
with the common JSON headers. -/
def create_token_request (username password : String) : Request :=
  ⟨"POST", AUTH_ENDPOINT, [],
   HEADERS,
   some (Json.obj [("username", Json.str username),
                   ("password", Json.str password)])⟩

/-- create_token of api_client.py as a state transition on the client,
given the response of the server: on status 200 it parses the body and, when
the body contains a token entry, stores it in self.token; the response
itself is returned.  Exceptions (JSON decode errors, TypeError or
KeyError from the membership test and subscript) are Except errors. -/
def create_token (c : RestfulBookerClient) (username password : String)
    (resp : HttpResponse) :
    Except String (RestfulBookerClient × HttpResponse) :=
  if resp.status_code = 200 then
    match resp.body with
    | none => Except.error "JSONDecodeError"
    | some data =>
        match pyIn "token" data with
        | Except.error e => Except.error e
        | Except.ok true =>
            match pySubscript data "token" with
            | Except.error e => Except.error e
            | Except.ok v => Except.ok ({ c with token := some v }, resp)
        | Except.ok false => Except.ok (c, resp)
  else Except.ok (c, resp)

/-- authenticate of api_client.py: create_token with the default
credentials, then return self.token when the response was 200 and
self.token is truthy, else raise Exception with the response text. -/
def authenticate (c : RestfulBookerClient) (resp : HttpResponse) :
    Except String (RestfulBookerClient × Json) :=
  match create_token c DEFAULT_USERNAME DEFAULT_PASSWORD resp with
  | Except.error e => Except.error e
  | Except.ok (c2, r) =>
      if r.status_code = 200 ∧ optTruthy c2.token then
        Except.ok (c2, (c2.token.getD Json.null))
      else
        Except.error ("Authentication failed: " ++ r.text)

/-- health_check of api_client.py: GET /ping with no explicit headers. -/
def health_check_request : Request :=
  ⟨"GET", PING_ENDPOINT, [], [], none⟩

/-- One step of the query-parameter construction of get_booking_ids:
params[k] = v runs only under if v, so None and the empty string are
skipped. -/
def addIfTruthy (params : List (String × String)) (k : String)
    (v : Option String) : List (String × String) :=
  match v with
  | none => params
  | some s => if s = "" then params else params ++ [(k, s)]

/-- get_booking_ids of api_client.py: GET /booking with each of the four
filters added to the query parameters only when truthy. -/
def get_booking_ids (firstname lastname checkin checkout : Option String) :
    Request :=
  let params : List (String × String) := []
  let params := addIfTruthy params "firstname" firstname
  let params := addIfTruthy params "lastname" lastname
  let params := addIfTruthy params "checkin" checkin
  let params := addIfTruthy params "checkout" checkout
  ⟨"GET", BOOKING_ENDPOINT, params, HEADERS, none⟩

/-- The default value of the accept parameter of get_booking. -/
def get_booking_default_accept : String := "application/json"

/-- get_booking of api_client.py: GET /booking/:id with the common
headers spread and the Accept entry overwritten by the argument. -/
def get_booking (booking_id : Int) (accept : String) : Request :=
  ⟨"GET", get_booking_url booking_id, [],
   dictInsert HEADERS "Accept" accept, none⟩

/-- create_booking of api_client.py: POST /booking, common headers. -/
def create_booking (booking_data : Json) : Request :=
  ⟨"POST", BOOKING_ENDPOINT, [], HEADERS, some booking_data⟩

/-- The authentication header selection shared by the three mutating
methods: if use_token and self.token (truthiness), the cookie token
header with the token interpolated by f-string; otherwise
get_basic_auth_header() with the default credentials. -/
def mutating_headers (c : RestfulBookerClient) (use_token : Bool) :
    List (String × String) :=
  if use_token && optTruthy c.token then
    get_auth_header (pystr (c.token.getD Json.null))
  else
    get_basic_auth_header DEFAULT_USERNAME DEFAULT_PASSWORD

/-- update_booking of api_client.py: PUT /booking/:id with the selected
authentication headers. -/
def update_booking (c : RestfulBookerClient) (booking_id : Int)
    (booking_data : Json) (use_token : Bool) : Request :=
  ⟨"PUT", get_booking_url booking_id, [],
   mutating_headers c use_token, some booking_data⟩

/-- partial_update_booking of api_client.py: PATCH /booking/:id with the
selected authentication headers. -/
def partial_update_booking (c : RestfulBookerClient) (booking_id : Int)
    (booking_data : Json) (use_token : Bool) : Request :=
  ⟨"PATCH", get_booking_url booking_id, [],
   mutating_headers c use_token, some booking_data⟩

/-- delete_booking of api_client.py: DELETE /booking/:id with the
selected authentication headers. -/
def delete_booking (c : RestfulBookerClient) (booking_id : Int)
    (use_token : Bool) : Request :=
  ⟨"DELETE", get_booking_url booking_id, [],
   mutating_headers c use_token, none⟩

/- ==================== JSON schemas (schemas.py) ==================== -/

/-- The fragment of JSON Schema used by schemas.py: type string, type
integer, type boolean, type [string, null], object schemas with
required, properties and additionalProperties, and array schemas with
items. -/
inductive Schema where
  | string : Schema
  | integer : Schema
  | boolean : Schema
  | stringOrNull : Schema
  | object (required : List String) (properties : List (String × Schema))
      (additionalProperties : Bool) : Schema
  | array (items : Schema) : Schema

/-- First-match lookup of a property schema by name. -/
def lookupSchema (props : List (String × Schema)) (k : String) :
    Option Schema :=
  match props with
  | [] => none
  | (k2, s) :: rest => if k2 = k then some s else lookupSchema rest k

mutual

/-- jsonschema validation for the schema fragment of schemas.py: type
checks, required keys, per-property subschemas, and rejection of keys
outside properties when additionalProperties is false. -/
def validate : Schema → Json → Bool
  | Schema.string, Json.str _ => true
  | Schema.string, _ => false
  | Schema.integer, Json.int _ => true
  | Schema.integer, _ => false
  | Schema.boolean, Json.bool _ => true
  | Schema.boolean, _ => false
  | Schema.stringOrNull, Json.str _ => true
  | Schema.stringOrNull, Json.null => true
  | Schema.stringOrNull, _ => false
  | Schema.array s, Json.arr xs => validateList s xs
  | Schema.array _, _ => false
  | Schema.object req props addl, Json.obj fields =>
      req.all (fun r => (lookupJson fields r).isSome) &&
        validateFields props addl fields
  | Schema.object _ _ _, _ => false

/-- Validation of every element of a JSON array against the item
schema. -/
def validateList : Schema → List Json → Bool
  | _, [] => true
  | s, x :: xs => validate s x && validateList s xs

/-- Validation of the fields of a JSON object: fields named in
properties must satisfy their subschema, others are allowed only when
additionalProperties holds. -/
def validateFields : List (String × Schema) → Bool →
    List (String × Json) → Bool
  | _, _, [] => true
  | props, addl, (k, v) :: rest =>
      (match lookupSchema props k with
       | some p => validate p v
       | none => addl) && validateFields props addl rest

end

/-- BOOKING_DATES_SCHEMA of schemas.py. -/
def BOOKING_DATES_SCHEMA : Schema :=
  Schema.object ["checkin", "checkout"]
    [("checkin", Schema.string), ("checkout", Schema.string)] false

/-- BOOKING_SCHEMA of schemas.py. -/
def BOOKING_SCHEMA : Schema :=
  Schema.object
    ["firstname", "lastname", "totalprice", "depositpaid", "bookingdates"]
    [("firstname", Schema.string), ("lastname", Schema.string),
     ("totalprice", Schema.integer), ("depositpaid", Schema.boolean),
     ("bookingdates", BOOKING_DATES_SCHEMA),
     ("additionalneeds", Schema.stringOrNull)] false

/-- BOOKING_RESPONSE_SCHEMA of schemas.py. -/
def BOOKING_RESPONSE_SCHEMA : Schema :=
  Schema.object ["bookingid", "booking"]
    [("bookingid", Schema.integer), ("booking", BOOKING_SCHEMA)] false

/-- BOOKING_ID_SCHEMA of schemas.py (element of the id-list schema). -/
def BOOKING_ID_SCHEMA : Schema :=
  Schema.object ["bookingid"] [("bookingid", Schema.integer)] false

/-- BOOKING_IDS_LIST_SCHEMA of schemas.py. -/
def BOOKING_IDS_LIST_SCHEMA : Schema := Schema.array BOOKING_ID_SCHEMA

/-- AUTH_RESPONSE_SCHEMA of schemas.py. -/
def AUTH_RESPONSE_SCHEMA : Schema :=
  Schema.object ["token"] [("token", Schema.string)] false

/-- AUTH_ERROR_SCHEMA of schemas.py. -/
def AUTH_ERROR_SCHEMA : Schema :=
  Schema.object ["reason"] [("reason", Schema.string)] false

/-- The required list of an object schema. -/
def requiredOf : Schema → List String
  | Schema.object req _ _ => req
  | _ => []

/-- The subschema an object schema assigns to a property name. -/
def propSchemaOf : Schema → String → Option Schema
  | Schema.object _ props _, k => lookupSchema props k
  | _, _ => none

/- ==================== Pydantic data model (models.py) ============ -/

/-- BookingDates of models.py: checkin and checkout strings, no
constraints. -/
structure BookingDates where
  checkin : String
  checkout : String
deriving Repr, DecidableEq

/-- Booking of models.py.  The pydantic fields carry constraints:
firstname and lastname have min_length 1 and totalprice has ge 0. -/
structure Booking where
  firstname : String
  lastname : String
  totalprice : Int
  depositpaid : Bool
  bookingdates : BookingDates
  additionalneeds : Option String
deriving Repr, DecidableEq

/-- A pydantic string field with a minimum length. -/
def requireStr (fields : List (String × Json)) (k : String)
    (minLen : Nat) : Except String String :=
  match lookupJson fields k with
  | some (Json.str s) =>
      if s.length < minLen then Except.error (k ++ ": string too short")
      else Except.ok s
  | _ => Except.error (k ++ ": string required")

/-- Validation of a JSON value against BookingDates of models.py
(pydantic construction; coercion modes are modelled strictly, the
claims exercise only well-typed payloads). -/
def BookingDates.model_validate (j : Json) : Except String BookingDates :=
  match j with
  | Json.obj fields =>
      match lookupJson fields "checkin", lookupJson fields "checkout" with
      | some (Json.str ci), some (Json.str co) => Except.ok ⟨ci, co⟩
      | _, _ => Except.error "bookingdates: invalid fields"
  | _ => Except.error "bookingdates: object required"

/-- Validation of a JSON payload against Booking of models.py: the
field constraints Field(min_length=1) on firstname and lastname and
Field(ge=0) on totalprice are enforced; additionalneeds defaults to
None; extra fields are ignored (pydantic default). -/
def Booking.model_validate (j : Json) : Except String Booking :=
  match j with
  | Json.obj fields => do
      let fn ← requireStr fields "firstname" 1
      let ln ← requireStr fields "lastname" 1
      let price ←
        match lookupJson fields "totalprice" with
        | some (Json.int n) =>
            if n < 0 then Except.error "totalprice: ge 0 violated"
            else Except.ok n
        | _ => Except.error "totalprice: integer required"
      let dep ←
        match lookupJson fields "depositpaid" with
        | some (Json.bool b) => Except.ok b
        | _ => Except.error "depositpaid: boolean required"
      let dates ←
        match lookupJson fields "bookingdates" with
        | some dj => BookingDates.model_validate dj
        | none => Except.error "bookingdates: field required"
      let needs ←
        match lookupJson fields "additionalneeds" with
        | none => Except.ok none
        | some Json.null => Except.ok none
        | some (Json.str s) => Except.ok (some s)
        | some _ => Except.error "additionalneeds: string or null required"
      Except.ok ⟨fn, ln, price, dep, dates, needs⟩
  | _ => Except.error "Booking: object required"

/-- A booking payload with the five required fields well-typed
(additionalneeds omitted; it is optional in model and schema). -/
def mkBookingJson (fn ln : String) (price : Int) (dep : Bool)
    (ci co : String) : Json :=
  Json.obj [("firstname", Json.str fn), ("lastname", Json.str ln),
    ("totalprice", Json.int price), ("depositpaid", Json.bool dep),
    ("bookingdates",
      Json.obj [("checkin", Json.str ci), ("checkout", Json.str co)])]

/- ==================== Fixture cleanup (tests/conftest.py) ========= -/

/-- The try/except Exception: pass wrapper around one cleanup
delete_booking call in the conftest.py fixtures: any exception from the
delete is caught and discarded. -/
def swallow_cleanup_error (outcome : Except String HttpResponse) :
    Except String Unit :=
  match outcome with
  | Except.ok _ => Except.ok ()
  | Except.error _ => Except.ok ()

/-- Teardown of the created_booking fixture: one guarded delete. -/
def created_booking_cleanup (outcome : Except String HttpResponse) :
    Except String Unit :=
  swallow_cleanup_error outcome

/-- Teardown of the multiple_bookings fixture: one guarded delete per
created booking id, in order; returns the number of delete attempts
made. -/
def multiple_bookings_cleanup :
    List (Except String HttpResponse) → Except String Nat
  | [] => Except.ok 0
  | d :: ds =>
      match swallow_cleanup_error d with
      | Except.ok _ => (multiple_bookings_cleanup ds).map (fun n => n + 1)
      | Except.error e => Except.error e

/- ==================== Statement helpers ==================== -/

/-- The query-parameter value a supplied filter should produce: absent
when omitted or empty, the supplied string otherwise. -/
def filterVal : Option String → Option String
  | none => none
  | some s => if s = "" then none else some s

/- ==================== Theorems ==================== -/

/-- Sanity check of the base64 model against a known test vector. -/
theorem base64Encode_default_credentials :
    base64Encode "admin:password123" = "YWRtaW46cGFzc3dvcmQxMjM=" := by
  decide

/-- Sanity check of base64 padding behaviour. -/
theorem base64Encode_padding :
    base64Encode ":" = "Og==" ∧ base64Encode "a:b" = "YTpi" := by
  constructor <;> decide

/-- Claim C1: create_token stores the token from a 200 response whose
JSON object body has a token field; on a 200 object body without a
token field and on every non-200 response the stored token is left
unchanged and the response is returned; a non-200 response never
raises; and every non-raising outcome returns the response itself and
either leaves the token unchanged or stores the token field of the
body. -/
theorem create_token_spec (c : RestfulBookerClient) (u p : String)
    (resp : HttpResponse) :
    (∀ fields v, resp.status_code = 200 →
      resp.body = some (Json.obj fields) →
      lookupJson fields "token" = some v →
      create_token c u p resp =
        Except.ok ({ c with token := some v }, resp)) ∧
    (∀ fields, resp.status_code = 200 →
      resp.body = some (Json.obj fields) →
      lookupJson fields "token" = none →
      create_token c u p resp = Except.ok (c, resp)) ∧
    (resp.status_code ≠ 200 →
      create_token c u p resp = Except.ok (c, resp)) ∧
    (∀ c2 r2, create_token c u p resp = Except.ok (c2, r2) →
      r2 = resp ∧
      (c2.token = c.token ∨
       ∃ fields v, resp.body = some (Json.obj fields) ∧
         lookupJson fields "token" = some v ∧ c2.token = some v)) := by
  refine ⟨?_, ?_, ?_, ?_⟩
  · intro fields v h200 hb hl
    simp [create_token, h200, hb, pyIn, pySubscript, hl]
  · intro fields h200 hb hl
    simp [create_token, h200, hb, pyIn, hl]
  · intro h200
    simp [create_token, h200]
  · intro c2 r2 h
    by_cases h200 : resp.status_code = 200
    · cases hb : resp.body with
      | none => simp [create_token, h200, hb] at h
      | some data =>
        cases data with
        | null => simp [create_token, h200, hb, pyIn] at h
        | bool b => simp [create_token, h200, hb, pyIn] at h
        | int n => simp [create_token, h200, hb, pyIn] at h
        | str s =>
          simp [create_token, h200, hb, pyIn, pySubscript] at h
          cases hcs : strContains s "token" with
          | true => rw [hcs] at h; simp at h
          | false =>
            rw [hcs] at h
            simp at h
            obtain ⟨h1, h2⟩ := h
            subst h1; subst h2
            exact ⟨rfl, Or.inl rfl⟩
        | arr xs =>
          simp [create_token, h200, hb, pyIn, pySubscript] at h
          cases hcs : xs.any fun j =>
              match j with
              | Json.str s => decide (s = "token")
              | _ => false
          with
          | true => rw [hcs] at h; simp at h
          | false =>
            rw [hcs] at h
            simp at h
            obtain ⟨h1, h2⟩ := h
            subst h1; subst h2
            exact ⟨rfl, Or.inl rfl⟩
        | obj fields =>
          simp [create_token, h200, hb, pyIn, pySubscript] at h
          cases hl : lookupJson fields "token" with
          | none =>
            rw [hl] at h
            simp at h
            obtain ⟨h1, h2⟩ := h
            subst h1; subst h2
            exact ⟨rfl, Or.inl rfl⟩
          | some v =>
            rw [hl] at h
            simp at h
            obtain ⟨h1, h2⟩ := h
            subst h2
            refine ⟨rfl, Or.inr ⟨fields, v, rfl, hl, ?_⟩⟩
            rw [← h1]
    · simp [create_token, h200] at h
      obtain ⟨h1, h2⟩ := h
      subst h1; subst h2
      exact ⟨rfl, Or.inl rfl⟩

/-- Witness for claim C1 at a concrete 200 response carrying a token. -/
theorem create_token_spec_witness :
    create_token ⟨none⟩ "admin" "password123"
        ⟨200, some (Json.obj [("token", Json.str "abc123")]), "ok"⟩ =
      Except.ok (⟨some (Json.str "abc123")⟩,
        ⟨200, some (Json.obj [("token", Json.str "abc123")]), "ok"⟩) :=
  (create_token_spec ⟨none⟩ "admin" "password123"
      ⟨200, some (Json.obj [("token", Json.str "abc123")]), "ok"⟩).1
    [("token", Json.str "abc123")] (Json.str "abc123") rfl rfl rfl

/-- Claim C2 (amended): for the three mutating calls, the cookie token
headers are used exactly when use_token is true and the client holds a
truthy (in particular non-empty) token; with use_token false or a
non-truthy stored token the headers are the basic-auth headers built
from the default credentials. -/
theorem mutating_auth_header_selection (c : RestfulBookerClient)
    (booking_id : Int) (booking_data : Json) (use_token : Bool) :
    (∀ t, use_token = true → c.token = some t → pyTruthy t = true →
      (update_booking c booking_id booking_data use_token).headers =
          get_auth_header (pystr t) ∧
      (partial_update_booking c booking_id booking_data
          use_token).headers = get_auth_header (pystr t) ∧
      (delete_booking c booking_id use_token).headers =
          get_auth_header (pystr t)) ∧
    (use_token = false ∨ optTruthy c.token = false →
      (update_booking c booking_id booking_data use_token).headers =
          get_basic_auth_header DEFAULT_USERNAME DEFAULT_PASSWORD ∧
      (partial_update_booking c booking_id booking_data
          use_token).headers =
          get_basic_auth_header DEFAULT_USERNAME DEFAULT_PASSWORD ∧
      (delete_booking c booking_id use_token).headers =
          get_basic_auth_header DEFAULT_USERNAME DEFAULT_PASSWORD) := by
  constructor
  · intro t hu ht htr
    have hh : mutating_headers c use_token = get_auth_header (pystr t) := by
      simp [mutating_headers, hu, ht, optTruthy, htr]
    exact ⟨by simp [update_booking, hh], by simp [partial_update_booking, hh],
      by simp [delete_booking, hh]⟩
  · intro hcase
    have hh : mutating_headers c use_token =
        get_basic_auth_header DEFAULT_USERNAME DEFAULT_PASSWORD := by
      rcases hcase with hu | ht
      · simp [mutating_headers, hu]
      · simp [mutating_headers, ht]
    exact ⟨by simp [update_booking, hh], by simp [partial_update_booking, hh],
      by simp [delete_booking, hh]⟩

/-- Witness for claim C2 at a concrete client holding the token abc and
at a concrete client holding no token. -/
theorem mutating_auth_header_selection_witness :
    (update_booking ⟨some (Json.str "abc")⟩ 1 (Json.obj []) true).headers =
        get_auth_header (pystr (Json.str "abc")) ∧
    (delete_booking ⟨none⟩ 1 true).headers =
        get_basic_auth_header DEFAULT_USERNAME DEFAULT_PASSWORD :=
  ⟨((mutating_auth_header_selection ⟨some (Json.str "abc")⟩ 1
        (Json.obj []) true).1 (Json.str "abc") rfl rfl (by decide)).1,
   ((mutating_auth_header_selection ⟨none⟩ 1 (Json.obj [])
        true).2 (Or.inr rfl)).2.2⟩

/-- Counterexample to claim C2 as stated: a client holding the stored
token "" (the empty string) with use_token true does not get the
cookie-style token headers; the truthiness test in the code makes it fall
back to basic-auth headers, so no Cookie header is sent at all. -/
theorem mutating_auth_header_empty_token_counterexample :
    RestfulBookerClient.token ⟨some (Json.str "")⟩ = some (Json.str "") ∧
    (update_booking ⟨some (Json.str "")⟩ 1 (Json.obj []) true).headers =
        get_basic_auth_header DEFAULT_USERNAME DEFAULT_PASSWORD ∧
    dictLookup (update_booking ⟨some (Json.str "")⟩ 1 (Json.obj [])
        true).headers "Cookie" = none ∧
    dictLookup (get_auth_header (pystr (Json.str ""))) "Cookie" =
        some "token=" := by
  refine ⟨rfl, rfl, ?_, ?_⟩ <;> decide

/-- Claim C3 (amended): authenticate raises exactly when the
create_token call did not both return status 200 and leave a truthy
(non-empty) token stored; when it does not raise it returns the stored
token; and create_token itself never raises on a non-2xx response (no
client method other than authenticate raises on a non-2xx response:
the remaining methods only build requests and return the response
unexamined). -/
theorem authenticate_spec (c : RestfulBookerClient)
    (resp : HttpResponse) :
    (∀ c2 r, create_token c DEFAULT_USERNAME DEFAULT_PASSWORD resp =
        Except.ok (c2, r) →
      ((r.status_code = 200 ∧ optTruthy c2.token = true →
        ∃ t, c2.token = some t ∧
          authenticate c resp = Except.ok (c2, t)) ∧
       (¬(r.status_code = 200 ∧ optTruthy c2.token = true) →
        authenticate c resp =
          Except.error ("Authentication failed: " ++ r.text)))) ∧
    (∀ e, create_token c DEFAULT_USERNAME DEFAULT_PASSWORD resp =
        Except.error e → authenticate c resp = Except.error e) ∧
    (resp.status_code < 200 ∨ 299 < resp.status_code →
      create_token c DEFAULT_USERNAME DEFAULT_PASSWORD resp =
        Except.ok (c, resp)) := by
  refine ⟨?_, ?_, ?_⟩
  · intro c2 r hct
    constructor
    · intro ⟨h200, htr⟩
      cases ht : c2.token with
      | none => rw [ht] at htr; simp [optTruthy] at htr
      | some t =>
        rw [ht] at htr
        refine ⟨t, rfl, ?_⟩
        simp [authenticate, hct, h200, ht, htr]
    · intro hncond
      simp [authenticate, hct]
      intro h200
      cases hot : optTruthy c2.token
      · rfl
      · exact absurd ⟨h200, hot⟩ hncond
  · intro e hct
    simp [authenticate, hct]
  · intro hrange
    have h200 : resp.status_code ≠ 200 := by omega
    simp [create_token, h200]

/-- Witness for claim C3: on a 200 response carrying the token abc,
authenticate stores and returns it. -/
theorem authenticate_spec_witness :
    authenticate ⟨none⟩
        ⟨200, some (Json.obj [("token", Json.str "abc")]), "ok"⟩ =
      Except.ok (⟨some (Json.str "abc")⟩, Json.str "abc") := by
  obtain ⟨t, ht, hout⟩ :=
    ((authenticate_spec ⟨none⟩
        ⟨200, some (Json.obj [("token", Json.str "abc")]), "ok"⟩).1
      ⟨some (Json.str "abc")⟩
      ⟨200, some (Json.obj [("token", Json.str "abc")]), "ok"⟩ rfl).1
      ⟨rfl, by decide⟩
  injection ht with h
  subst h
  exact hout

/-- Counterexample to claim C3 as stated: on a 200 response whose body
is the object with token "", create_token returns status 200 and does
leave a token stored on the client (the empty string), yet authenticate
raises, because the code tests Python truthiness of the stored token
and the empty string is falsy. -/
theorem authenticate_stored_token_counterexample :
    create_token ⟨none⟩ DEFAULT_USERNAME DEFAULT_PASSWORD
        ⟨200, some (Json.obj [("token", Json.str "")]), "body"⟩ =
      Except.ok (⟨some (Json.str "")⟩,
        ⟨200, some (Json.obj [("token", Json.str "")]), "body"⟩) ∧
    authenticate ⟨none⟩
        ⟨200, some (Json.obj [("token", Json.str "")]), "body"⟩ =
      Except.error "Authentication failed: body" :=
  ⟨rfl, rfl⟩

/-- Claim C9: a freshly constructed client holds no token, and each of
the three mutating calls with use_token true on a fresh client builds
its request with the basic-auth headers from the default credentials. -/
theorem fresh_client_mutating_calls_use_basic_auth :
    RestfulBookerClient.init.token = none ∧
    ∀ (booking_id : Int) (booking_data : Json),
      (update_booking RestfulBookerClient.init booking_id booking_data
          true).headers =
        get_basic_auth_header DEFAULT_USERNAME DEFAULT_PASSWORD ∧
      (partial_update_booking RestfulBookerClient.init booking_id
          booking_data true).headers =
        get_basic_auth_header DEFAULT_USERNAME DEFAULT_PASSWORD ∧
      (delete_booking RestfulBookerClient.init booking_id true).headers =
        get_basic_auth_header DEFAULT_USERNAME DEFAULT_PASSWORD :=
  ⟨rfl, fun _ _ => ⟨rfl, rfl, rfl⟩⟩

/-- Claim C10: get_booking sends the accept argument as the Accept
header (overriding the default entry of the common headers), always
sends Content-Type application/json, and with the default argument the
Accept header is application/json. -/
theorem get_booking_accept_header (booking_id : Int) (accept : String) :
    dictLookup (get_booking booking_id accept).headers "Accept" =
        some accept ∧
    dictLookup (get_booking booking_id accept).headers "Content-Type" =
        some "application/json" ∧
    dictLookup (get_booking booking_id
        get_booking_default_accept).headers "Accept" =
        some "application/json" := by
  refine ⟨?_, ?_, ?_⟩ <;>
    simp [get_booking, get_booking_default_accept, dictInsert, HEADERS,
      dictLookup]

/-- Claim C6: get_auth_header carries Cookie token=t plus the common
JSON headers, and get_basic_auth_header carries Authorization Basic
base64(u:p) plus the common JSON headers. -/
theorem auth_header_forms (t u p : String) :
    dictLookup (get_auth_header t) "Cookie" = some ("token=" ++ t) ∧
    dictLookup (get_auth_header t) "Content-Type" =
        some "application/json" ∧
    dictLookup (get_auth_header t) "Accept" = some "application/json" ∧
    dictLookup (get_basic_auth_header u p) "Authorization" =
        some ("Basic " ++ base64Encode (u ++ ":" ++ p)) ∧
    dictLookup (get_basic_auth_header u p) "Content-Type" =
        some "application/json" ∧
    dictLookup (get_basic_auth_header u p) "Accept" =
        some "application/json" := by
  refine ⟨?_, ?_, ?_, ?_, ?_, ?_⟩ <;>
    simp [get_auth_header, get_basic_auth_header, dictInsert, HEADERS,
      dictLookup]

set_option maxHeartbeats 1600000 in
/-- Claim C5: each of the four filters of get_booking_ids appears in
the query parameters exactly when supplied and non-empty, with the
supplied value, and no other query parameter is ever present. -/
theorem get_booking_ids_filter_params
    (firstname lastname checkin checkout : Option String) :
    dictLookup (get_booking_ids firstname lastname checkin
        checkout).params "firstname" = filterVal firstname ∧
    dictLookup (get_booking_ids firstname lastname checkin
        checkout).params "lastname" = filterVal lastname ∧
    dictLookup (get_booking_ids firstname lastname checkin
        checkout).params "checkin" = filterVal checkin ∧
    dictLookup (get_booking_ids firstname lastname checkin
        checkout).params "checkout" = filterVal checkout ∧
    (get_booking_ids firstname lastname checkin checkout).params.all
      (fun kv => kv.1 == "firstname" || kv.1 == "lastname" ||
        kv.1 == "checkin" || kv.1 == "checkout") = true := by
  rcases firstname with _ | fs <;> rcases lastname with _ | ls <;>
    rcases checkin with _ | cs <;> rcases checkout with _ | os <;>
    simp [get_booking_ids, addIfTruthy, filterVal, dictLookup] <;>
    split_ifs <;> simp_all [dictLookup] <;> tauto

/-- Evaluation of the pydantic Booking model on a well-typed payload:
only the min_length and ge constraints can reject it. -/
theorem model_validate_mkBookingJson (fn ln : String) (price : Int)
    (dep : Bool) (ci co : String) :
    Booking.model_validate (mkBookingJson fn ln price dep ci co) =
      if fn.length < 1 then Except.error "firstname: string too short"
      else if ln.length < 1 then Except.error "lastname: string too short"
      else if price < 0 then Except.error "totalprice: ge 0 violated"
      else Except.ok ⟨fn, ln, price, dep, ⟨ci, co⟩, none⟩ := by
  by_cases h1 : fn.length < 1 <;> by_cases h2 : ln.length < 1 <;>
    by_cases h3 : price < 0 <;>
    simp [Booking.model_validate, mkBookingJson, requireStr,
      lookupJson, BookingDates.model_validate, h1, h2, h3] <;>
    rfl

/-- A string has length zero exactly when it is empty. -/
theorem string_length_eq_zero (s : String) : s.length = 0 ↔ s = "" := by
  rw [String.ext_iff]
  cases s
  simp [String.length]

/-- Claim C4 (amended): the JSON schema enforces shape only, accepting
every well-typed payload including negative prices and empty names;
the pydantic Booking model additionally enforces min_length 1 on
firstname and lastname and ge 0 on totalprice, so it accepts a
well-typed payload exactly when the names are non-empty and the price
is non-negative. -/
theorem booking_model_vs_schema (fn ln : String) (price : Int)
    (dep : Bool) (ci co : String) :
    validate BOOKING_SCHEMA (mkBookingJson fn ln price dep ci co) =
        true ∧
    ((∃ b, Booking.model_validate (mkBookingJson fn ln price dep ci co) =
        Except.ok b) ↔ fn ≠ "" ∧ ln ≠ "" ∧ 0 ≤ price) := by
  constructor
  · simp [validate, validateFields, validateList, BOOKING_SCHEMA,
      BOOKING_DATES_SCHEMA, mkBookingJson, lookupSchema, lookupJson]
  · rw [model_validate_mkBookingJson]
    constructor
    · rintro ⟨b, hb⟩
      by_cases h1 : fn.length < 1
      · simp [h1] at hb
      · by_cases h2 : ln.length < 1
        · simp [h1, h2] at hb
        · by_cases h3 : price < 0
          · simp [h1, h2, h3] at hb
          · refine ⟨?_, ?_, by omega⟩
            · intro he
              subst he
              simp at h1
            · intro he
              subst he
              simp at h2
    · rintro ⟨hfn, hln, hp⟩
      have h1 : ¬fn.length < 1 := by
        intro hc
        exact hfn ((string_length_eq_zero fn).mp (by omega))
      have h2 : ¬ln.length < 1 := by
        intro hc
        exact hln ((string_length_eq_zero ln).mp (by omega))
      have h3 : ¬price < 0 := by omega
      exact ⟨⟨fn, ln, price, dep, ⟨ci, co⟩, none⟩, by simp [h1, h2, h3]⟩

/-- Witness for claim C4 on both sides of the model acceptance
condition: a well-typed positive payload is accepted and a well-typed
negative-price payload is not. -/
theorem booking_model_vs_schema_witness :
    validate BOOKING_SCHEMA
        (mkBookingJson "Jim" "Brown" 111 true "2024-01-01" "2024-01-05") =
      true ∧
    (∃ b, Booking.model_validate
        (mkBookingJson "Jim" "Brown" 111 true "2024-01-01" "2024-01-05") =
      Except.ok b) :=
  ⟨(booking_model_vs_schema "Jim" "Brown" 111 true
      "2024-01-01" "2024-01-05").1,
   (booking_model_vs_schema "Jim" "Brown" 111 true
      "2024-01-01" "2024-01-05").2.mpr
     ⟨by decide, by decide, by decide⟩⟩

/-- Counterexample to claim C4 as stated: payloads with an empty
firstname or a negative totalprice validate against the client-side
schema but are rejected by the client-side pydantic Booking model, so
they are not accepted as a valid Booking by the model and schema. -/
theorem booking_model_counterexample :
    validate BOOKING_SCHEMA
        (mkBookingJson "" "Doe" 10 true "2024-01-01" "2024-01-02") =
      true ∧
    (Booking.model_validate
        (mkBookingJson "" "Doe" 10 true "2024-01-01"
          "2024-01-02")).toOption = none ∧
    validate BOOKING_SCHEMA
        (mkBookingJson "Jim" "Doe" (-1) true "2024-01-01" "2024-01-02") =
      true ∧
    (Booking.model_validate
        (mkBookingJson "Jim" "Doe" (-1) true "2024-01-01"
          "2024-01-02")).toOption = none := by
  refine ⟨?_, ?_, ?_, ?_⟩ <;> decide

/-- An object schema that forbids additional properties rejects any
object containing a key outside its property set. -/
theorem validateFields_false_of_extra (props : List (String × Schema))
    (k : String) (v : Json) :
    ∀ fields : List (String × Json), (k, v) ∈ fields →
      lookupSchema props k = none →
      validateFields props false fields = false := by
  intro fields hmem hl
  induction fields with
  | nil => simp at hmem
  | cons kv rest ih =>
    obtain ⟨k2, v2⟩ := kv
    rw [List.mem_cons] at hmem
    rcases hmem with heq | hmem
    · injection heq with hk hv
      subst hk; subst hv
      simp [validateFields, hl]
    · simp [validateFields, ih hmem]

/-- An object schema rejects any object giving a declared property a
value its subschema rejects. -/
theorem validateFields_false_of_invalid (props : List (String × Schema))
    (addl : Bool) (k : String) (v : Json) (P : Schema) :
    ∀ fields : List (String × Json), (k, v) ∈ fields →
      lookupSchema props k = some P → validate P v = false →
      validateFields props addl fields = false := by
  intro fields hmem hl hv
  induction fields with
  | nil => simp at hmem
  | cons kv rest ih =>
    obtain ⟨k2, v2⟩ := kv
    rw [List.mem_cons] at hmem
    rcases hmem with heq | hmem
    · injection heq with hk hv2
      subst hk; subst hv2
      simp [validateFields, hl, hv]
    · simp [validateFields, ih hmem]

/-- The three rejection behaviours of an object schema with
additionalProperties false: an extra key, a missing required key, or a
mistyped declared property each make validation fail. -/
theorem object_schema_rejects (req : List String)
    (props : List (String × Schema)) (fields : List (String × Json)) :
    ((∃ kv ∈ fields, lookupSchema props kv.1 = none) →
      validate (Schema.object req props false) (Json.obj fields) =
        false) ∧
    ((∃ r ∈ req, lookupJson fields r = none) →
      validate (Schema.object req props false) (Json.obj fields) =
        false) ∧
    ((∃ kv ∈ fields, ∃ P, lookupSchema props kv.1 = some P ∧
        validate P kv.2 = false) →
      validate (Schema.object req props false) (Json.obj fields) =
        false) := by
  refine ⟨?_, ?_, ?_⟩
  · rintro ⟨⟨k, v⟩, hmem, hl⟩
    simp [validate,
      validateFields_false_of_extra props k v fields hmem hl]
  · rintro ⟨r, hr, hl⟩
    have : req.all (fun x => (lookupJson fields x).isSome) = false := by
      rw [List.all_eq_false]
      exact ⟨r, hr, by simp [hl]⟩
    simp [validate, this]
  · rintro ⟨⟨k, v⟩, hmem, P, hl, hv⟩
    simp [validate,
      validateFields_false_of_invalid props false k v P fields hmem hl hv]

/-- Claim C7: each of the five response schemas rejects every JSON
object that carries a property outside its property set, or omits one
of its required fields, or gives a declared property a value of the
wrong type. -/
theorem response_schemas_reject (S : Schema)
    (hS : S ∈ [BOOKING_SCHEMA, BOOKING_RESPONSE_SCHEMA,
      BOOKING_ID_SCHEMA, AUTH_RESPONSE_SCHEMA, AUTH_ERROR_SCHEMA])
    (fields : List (String × Json)) :
    ((∃ kv ∈ fields, propSchemaOf S kv.1 = none) →
      validate S (Json.obj fields) = false) ∧
    ((∃ r ∈ requiredOf S, lookupJson fields r = none) →
      validate S (Json.obj fields) = false) ∧
    ((∃ kv ∈ fields, ∃ P, propSchemaOf S kv.1 = some P ∧
        validate P kv.2 = false) →
      validate S (Json.obj fields) = false) := by
  fin_cases hS <;>
    exact object_schema_rejects _ _ fields

/-- Witness for claim C7: the auth-response schema rejects an object
whose token field is an integer. -/
theorem response_schemas_reject_witness :
    validate AUTH_RESPONSE_SCHEMA (Json.obj [("token", Json.int 5)]) =
      false :=
  (response_schemas_reject AUTH_RESPONSE_SCHEMA (by simp)
      [("token", Json.int 5)]).2.2
    ⟨("token", Json.int 5), by simp, Schema.string, rfl, rfl⟩

/-- Claim C8: the fixture cleanups of conftest.py are best-effort: the
created_booking teardown never propagates an exception from its delete,
and the multiple_bookings teardown attempts every delete and never
propagates an exception, whatever each delete call does. -/
theorem fixture_cleanup_never_raises :
    (∀ outcome, created_booking_cleanup outcome = Except.ok ()) ∧
    (∀ outcomes, multiple_bookings_cleanup outcomes =
      Except.ok outcomes.length) := by
  constructor
  · intro outcome
    cases outcome <;> rfl
  · intro outcomes
    induction outcomes with
    | nil => rfl
    | cons d ds ih =>
      cases d <;>
        simp [multiple_bookings_cleanup, swallow_cleanup_error,
          Except.map, ih]
